import Mathlib

/-!
Shallow embedding of the Tatvgya client (React frontend) for checking the
specification's claims. Each definition is translated from the source file it
names; JavaScript objects become structures, `undefined`/absent fields become
`Option`, and the handlers' effects (state setters, toasts, requests) become
explicit effect lists or state-passing functions.
-/

/- ================================================================
   src/context/AuthContext.js (src/unnamed/part_000, first file)
   ================================================================ -/

/-- The slice of the backend user object the router inspects. `role` is
`Option` because a user object may lack the field (`user?.role` would be
`undefined`). -/
structure UserJs where
  role : Option String
deriving DecidableEq, Repr

/-- The auth context fields consumed by `ProtectedRoute`: `user` (null before
login), and the `loading` flag that is true until the initial /auth/me check
settles. `isAuthenticated` is `!!user`. -/
structure AuthState where
  user : Option UserJs
  loading : Bool
deriving DecidableEq, Repr

/-- `isAuthenticated: !!user` from the AuthProvider value. -/
def isAuthenticated (a : AuthState) : Bool :=
  a.user.isSome

/-- `user?.role`: `undefined` when `user` is null or has no role. -/
def optRole (a : AuthState) : Option String :=
  a.user.bind (fun u => u.role)

/- ================================================================
   src/App.js (src/unnamed/part_000, second file)
   ================================================================ -/

/-- `location` as given by `useLocation()`: the pathname and the URL
fragment. -/
structure RouteLocation where
  pathname : String
  hash : String
deriving DecidableEq, Repr

/-- What a `ProtectedRoute` render evaluates to: the spinner, a `<Navigate>`
redirect (with the optional `state={{ from: location }}`), or the protected
children. -/
inductive GateRender where
  | spinner
  | redirect (dest : String) (fromLoc : Option RouteLocation)
  | children
deriving DecidableEq, Repr

/-- JS `Array.prototype.includes` applied to a list of strings and the
possibly-`undefined` value `user?.role`: `undefined` is not equal to any
string, so membership is false when the role is absent. -/
def includesOpt (roles : List String) (v : Option String) : Bool :=
  match v with
  | some s => roles.contains s
  | none => false

/-- `ProtectedRoute({ children, allowedRoles = [] })`, translated branch by
branch: spinner while `loading`; `<Navigate to="/login" state={{from}}>` when
not authenticated; `<Navigate to="/">` when `allowedRoles` is non-empty and
does not include `user?.role`; otherwise the children. -/
def ProtectedRoute (auth : AuthState) (location : RouteLocation)
    (allowedRoles : List String) : GateRender :=
  if auth.loading then
    .spinner
  else if !(isAuthenticated auth) then
    .redirect "/login" (some location)
  else if allowedRoles.length > 0 && !(includesOpt allowedRoles (optRole auth)) then
    .redirect "/" none
  else
    .children

/- ================================================================
   src/frontend/src/lib/api.js — apiCall / publicApiCall
   ================================================================ -/

/-- A parsed JSON response body as the api helpers see it: the optional
`detail` field (the only field they inspect) plus an opaque payload standing
for the rest of the parsed value, passed through untouched. -/
structure JsonBody where
  detail : Option String
  payload : String
deriving DecidableEq, Repr

/-- One HTTP response: the `ok` flag and the result of `response.json()`
(`none` when the body is not valid JSON, so `.json()` rejects). -/
structure HttpResponse where
  ok : Bool
  jsonBody : Option JsonBody
deriving DecidableEq, Repr

/-- JS truthiness of a string: only the empty string is falsy. -/
def strTruthy (s : String) : Bool :=
  s ≠ ""

/-- What a call to an api helper settles to: the parsed body on success, a
thrown `Error(message)`, or the propagated rejection of `response.json()` when
an `ok` response has a non-JSON body. -/
inductive ApiOutcome where
  | success (body : JsonBody)
  | thrown (message : String)
  | parseFailure
deriving DecidableEq, Repr

/-- `error.detail || fallback`: the detail field when present and truthy,
otherwise the fallback. -/
def detailOr (detail : Option String) (fallback : String) : String :=
  match detail with
  | some d => if strTruthy d then d else fallback
  | none => fallback

/-- `apiCall` (lib/api.js): one fetch with credentials; on `!response.ok` the
body is parsed with `.catch(() => ({detail: 'An error occurred'}))` and
`Error(error.detail || 'Request failed')` is thrown; on `ok` the parsed body
is returned. The model consumes exactly one `HttpResponse` — the single fetch
— and has no retry path. -/
def apiCall (response : HttpResponse) : ApiOutcome :=
  if !response.ok then
    let error : JsonBody :=
      response.jsonBody.getD { detail := some "An error occurred", payload := "" }
    .thrown (detailOr error.detail "Request failed")
  else
    match response.jsonBody with
    | some body => .success body
    | none => .parseFailure

/-- `publicApiCall` (lib/api.js): identical response handling to `apiCall`
(the two differ only in the `credentials: 'include'` fetch option, which does
not affect how a received response is treated). -/
def publicApiCall (response : HttpResponse) : ApiOutcome :=
  if !response.ok then
    let error : JsonBody :=
      response.jsonBody.getD { detail := some "An error occurred", payload := "" }
    .thrown (detailOr error.detail "Request failed")
  else
    match response.jsonBody with
    | some body => .success body
    | none => .parseFailure

/- ================================================================
   src/pages/Article.js (src/unnamed/part_004, third file):
   handleLike / handleBookmark and their local state
   ================================================================ -/

/-- The article page's toggle-related local state: the four useState slots
`isLiked`, `isBookmarked`, `likeCount`, `bookmarkCount`. -/
structure ToggleState where
  isLiked : Bool
  isBookmarked : Bool
  likeCount : Int
  bookmarkCount : Int
deriving DecidableEq, Repr

/-- The backend's response body to POST /articles/:id/like. -/
structure LikeResult where
  liked : Bool
  like_count : Int
deriving DecidableEq, Repr

/-- The backend's response body to POST /articles/:id/bookmark. -/
structure BookmarkResult where
  bookmarked : Bool
  bookmark_count : Int
deriving DecidableEq, Repr

/-- A primitive effect emitted by the article page's click handlers, in
program order: a toast, or one of the four state setters. -/
inductive ToggleEffect where
  | toastError (msg : String)
  | toastSuccess (msg : String)
  | setIsLiked (b : Bool)
  | setLikeCount (n : Int)
  | setIsBookmarked (b : Bool)
  | setBookmarkCount (n : Int)
deriving DecidableEq, Repr

/-- One run of a click handler, split at its `await` of the POST call:
`beforeResponse` are the effects emitted between the click and the request
being sent, `requestSent` records whether the POST was issued, and
`afterResponse` are the effects emitted once the call settles (`result` in
the handler definitions below). -/
structure HandlerRun where
  beforeResponse : List ToggleEffect
  requestSent : Bool
  afterResponse : List ToggleEffect
deriving DecidableEq, Repr

/-- `handleLike`: an unauthenticated click only toasts and returns; otherwise
the POST is awaited and, in the `try` branch, `setIsLiked(result.liked)`,
`setLikeCount(result.like_count)` and a success toast run — all after the
response; the `catch` branch only toasts. Nothing is emitted between the
click and the request. -/
def handleLike (isAuth : Bool) (result : Except String LikeResult) : HandlerRun :=
  if !isAuth then
    { beforeResponse := [.toastError "Please login to like articles"],
      requestSent := false,
      afterResponse := [] }
  else
    { beforeResponse := [],
      requestSent := true,
      afterResponse :=
        match result with
        | .ok r =>
            [.setIsLiked r.liked, .setLikeCount r.like_count,
             .toastSuccess (if r.liked then "Article liked!" else "Like removed")]
        | .error _ => [.toastError "Failed to like article"] }

/-- `handleBookmark`: same shape as `handleLike` with the bookmark setters
and messages. -/
def handleBookmark (isAuth : Bool) (result : Except String BookmarkResult) : HandlerRun :=
  if !isAuth then
    { beforeResponse := [.toastError "Please login to bookmark articles"],
      requestSent := false,
      afterResponse := [] }
  else
    { beforeResponse := [],
      requestSent := true,
      afterResponse :=
        match result with
        | .ok r =>
            [.setIsBookmarked r.bookmarked, .setBookmarkCount r.bookmark_count,
             .toastSuccess (if r.bookmarked then "Article bookmarked!" else "Bookmark removed")]
        | .error _ => [.toastError "Failed to bookmark article"] }

/-- How each effect acts on the toggle state (toasts change no state). -/
def applyEffect (s : ToggleState) : ToggleEffect → ToggleState
  | .setIsLiked b => { s with isLiked := b }
  | .setLikeCount n => { s with likeCount := n }
  | .setIsBookmarked b => { s with isBookmarked := b }
  | .setBookmarkCount n => { s with bookmarkCount := n }
  | .toastError _ => s
  | .toastSuccess _ => s

/-- Run a list of effects over the toggle state, in order. -/
def applyEffects (s : ToggleState) (effects : List ToggleEffect) : ToggleState :=
  effects.foldl applyEffect s

/-- All effects of a handler run, in program order. -/
def HandlerRun.allEffects (run : HandlerRun) : List ToggleEffect :=
  run.beforeResponse ++ run.afterResponse

/- ================================================================
   src/frontend/src/pages/Explore.js — fetchArticles / loadMore
   ================================================================ -/

/-- The Explore page's pagination-related state: the `page` useState slot,
the accumulated `articles` (ids), and `hasMore`. -/
structure ExploreState where
  page : Nat
  articles : List Nat
  hasMore : Bool
deriving DecidableEq, Repr

/-- `fetchArticles(resetPage)`, with the closure's render-time value of
`page` made explicit (`closurePage`): `currentPage` is 1 on reset, else the
closure's `page`; the batch for `currentPage` (limit 12) replaces or is
appended to `articles`; `setPage(1)` runs only on reset; `hasMore` becomes
`data.length === 12`. Returns the new state and the page number requested.
`server` maps a page number to the batch the GET /articles call returns. -/
def fetchArticles (server : Nat → List Nat) (resetPage : Bool) (closurePage : Nat)
    (s : ExploreState) : ExploreState × Nat :=
  let currentPage := if resetPage then 1 else closurePage
  let data := server currentPage
  let articles := if resetPage then data else s.articles ++ data
  let page := if resetPage then 1 else s.page
  ({ page := page, articles := articles, hasMore := data.length == 12 }, currentPage)

/-- `loadMore`: `setPage(prev => prev + 1)` updates the state slot, but the
immediately following `fetchArticles(false)` is the closure created at the
current render, whose captured `page` is still the pre-click value `s.page`. -/
def loadMore (server : Nat → List Nat) (s : ExploreState) : ExploreState × Nat :=
  let afterSetPage : ExploreState := { s with page := s.page + 1 }
  fetchArticles server false s.page afterSetPage

/-- Mounting the Explore page (the `[filters]` effect) runs
`fetchArticles(true)`. -/
def exploreMount (server : Nat → List Nat) : ExploreState × Nat :=
  fetchArticles server true 1 { page := 1, articles := [], hasMore := true }

/-- A concrete backend for evaluation: page `p` holds the twelve article ids
`100*p .. 100*p + 11`, so distinct pages share no ids. -/
def demoServer (p : Nat) : List Nat :=
  (List.range 12).map (fun i => 100 * p + i)

/- ================================================================
   formatNumber — src/components/ArticleCard.js (src/unnamed/part_001)
   and the dashboard pages (src/unnamed/part_004, AdminDashboard.js)
   ================================================================ -/

/-- `(num / d).toFixed(1)` for a natural count `num` and divisor `d`
(1000 or 1000000): the quotient rendered with one decimal digit, rounding
half away from zero. The double-precision representation error of
`num / d` is not modelled; it only matters at representation-inexact ties,
and the claims are settled on exact values. -/
def toFixedOne (num d : Nat) : String :=
  let tenths := (num * 10 + d / 2) / d
  toString (tenths / 10) ++ "." ++ toString (tenths % 10)

/-- `formatNumber` as defined inside ArticleCard (and EducatorProfile):
`num >= 1000000` gives an 'M' rendering, `num >= 1000` a 'K' rendering, and
otherwise `num?.toString() || '0'`. The input is `Option Nat`: `none` is a
missing field (`undefined >= 1000` is false and `undefined?.toString()` is
`undefined`, so the `|| '0'` fallback fires); a `Nat`'s decimal string is
never empty, so for present values `num.toString()` is returned as is. -/
def formatNumberCard (num : Option Nat) : String :=
  match num with
  | some n =>
      if n ≥ 1000000 then toFixedOne n 1000000 ++ "M"
      else if n ≥ 1000 then toFixedOne n 1000 ++ "K"
      else toString n
  | none => "0"

/-- `formatNumber` as defined inside EducatorDashboard and AdminDashboard:
same as the card version but with no 'M' branch. -/
def formatNumberDashboard (num : Option Nat) : String :=
  match num with
  | some n =>
      if n ≥ 1000 then toFixedOne n 1000 ++ "K"
      else toString n
  | none => "0"

/- ================================================================
   Requests issued by Article.fetchData (src/unnamed/part_004) and
   EducatorProfile.fetchData (src/unnamed/part_003)
   ================================================================ -/

/-- The article entity fields the fetch logic reads. -/
structure ArticleData where
  article_id : String
  is_liked : Bool
  is_bookmarked : Bool
  like_count : Int
  bookmark_count : Int
deriving DecidableEq, Repr

/-- A network request one of the two fetchData effects can issue (the api.js
wrapper invoked, with its arguments). -/
inductive ApiRequest where
  | getArticle (idOrSlug : String)
  | getRelatedArticles (articleId : String) (limit : Nat)
  | getEducator (id : String)
  | getEducatorArticles (educatorId : String) (status : String) (limit : Nat)
deriving DecidableEq, Repr

/-- The requests Article.fetchData issues, in order: `getArticle(id)` with
the route param, then — only after that call's response `articleData` has
arrived — `getRelatedArticles(articleData.article_id)` (default limit 4).
The second request's argument is a field of the first response. -/
def articleFetchRequests (id : String) (articleData : ArticleData) : List ApiRequest :=
  [.getArticle id, .getRelatedArticles articleData.article_id 4]

/-- The requests EducatorProfile.fetchData issues (via `Promise.all`, so
both are built before either response arrives): both take only the route
param `id`. -/
def educatorFetchRequests (id : String) : List ApiRequest :=
  [.getEducator id, .getEducatorArticles id "published" 20]

/- ================================================================
   AuthContext register / verifyOtp and Login.handleSubmit
   (src/unnamed/part_000 and src/frontend/src/pages/Login.js)
   ================================================================ -/

/-- The JSON body `register` sends to POST /auth/register. -/
structure RegisterBody where
  name : String
  email : String
  password : String
  role : String
deriving DecidableEq, Repr

/-- A parsed response body of the auth endpoints: the optional `detail`
(read on errors) and the optional `user` object (read by login, verifyOtp
and googleLogin on success). -/
structure AuthBody where
  detail : Option String
  user : Option UserJs
deriving DecidableEq, Repr

/-- An HTTP response to an auth fetch: `ok` plus the result of
`response.json()` (`none` when the body is not JSON). -/
structure AuthResponse where
  ok : Bool
  body : Option AuthBody
deriving DecidableEq, Repr

/-- An effect of an AuthContext function: the fetch it issues (endpoint and
optional register body), a `setUser` call, a thrown `Error(message)`, or a
propagated `response.json()` rejection. -/
inductive AuthEffect where
  | request (endpoint : String) (body : Option RegisterBody)
  | setUser (u : Option UserJs)
  | thrown (message : String)
  | parseFailed
deriving DecidableEq, Repr

/-- The body `register(name, email, password)` serialises:
`{ name, email, password, role: 'student' }` — the role is the literal
'student', independent of the arguments. -/
def registerRequestBody (name email password : String) : RegisterBody :=
  { name := name, email := email, password := password, role := "student" }

/-- `register` in AuthContext: one POST to /auth/register with the body
above; on `!response.ok` it parses the body and throws
`Error(error.detail || 'Registration failed')` (an unparsable body makes
`response.json()` reject); on `ok` it returns the parsed body. It never
calls `setUser`. -/
def register (name email password : String) (resp : AuthResponse) : List AuthEffect :=
  .request "/auth/register" (some (registerRequestBody name email password)) ::
    (if !resp.ok then
      match resp.body with
      | some e => [.thrown (detailOr e.detail "Registration failed")]
      | none => [.parseFailed]
    else [])

/-- `verifyOtp` in AuthContext: one POST to /auth/verify-otp (email and otp
as query params; URL encoding elided); on `!ok` it throws
`Error(error.detail || 'OTP verification failed')`; on `ok` it calls
`setUser(data.user)` — this is where the registering user becomes logged
in. -/
def verifyOtp (email otpCode : String) (resp : AuthResponse) : List AuthEffect :=
  .request ("/auth/verify-otp?email=" ++ email ++ "&otp_code=" ++ otpCode) none ::
    (if !resp.ok then
      match resp.body with
      | some e => [.thrown (detailOr e.detail "OTP verification failed")]
      | none => [.parseFailed]
    else
      match resp.body with
      | some d => [.setUser d.user]
      | none => [.parseFailed])

/-- The registration form state in Login.js: name, email, password — there
is no role input. -/
structure LoginFormData where
  name : String
  email : String
  password : String
deriving DecidableEq, Repr

/-- The register branch of Login.handleSubmit (`isLogin` false) calls
`register(formData.name, formData.email, formData.password)`; this is the
request body that call produces. -/
def handleSubmitRegisterBody (formData : LoginFormData) : RegisterBody :=
  registerRequestBody formData.name formData.email formData.password

/- ================================================================
   AppRouter (src/unnamed/part_000, second file)
   ================================================================ -/

/-- `hay.startsWith needle` on character lists. -/
def startsWithList : List Char → List Char → Bool
  | _, [] => true
  | [], _ :: _ => false
  | a :: as, b :: bs => a == b && startsWithList as bs

/-- `hay` contains `needle` as a contiguous substring. -/
def containsSubList : List Char → List Char → Bool
  | [], needle => needle.isEmpty
  | a :: rest, needle =>
      startsWithList (a :: rest) needle || containsSubList rest needle

/-- JS `String.prototype.includes`. -/
def includesSub (hay needle : String) : Bool :=
  containsSubList hay.data needle.data

/-- What AppRouter can render: one of the page elements of the route table
(protected ones wrapped in their role gate in the source; the wrapping is
irrelevant to route selection), or the fallback redirect to '/'. -/
inductive RouteElement where
  | home
  | explore
  | article (id : String)
  | educatorProfilePage (id : String)
  | login
  | authCallback
  | contact
  | about
  | vision
  | studentDashboard
  | educatorDashboard
  | articleEditorCreate
  | articleEditorEdit (id : String)
  | adminDashboard
  | redirectHome
deriving DecidableEq, Repr

/-- The non-empty segments of a pathname. -/
def pathSegments (pathname : String) : List String :=
  (pathname.splitOn "/").filter (fun s => s ≠ "")

/-- The `<Routes>` table of AppRouter, as react-router matches it (static
segments rank above the `:id` params, so /educator/create and
/educator/edit/:id beat /educator/:id; unmatched paths hit the `*`
fallback `<Navigate to="/">`). -/
def matchRoutes (pathname : String) : RouteElement :=
  match pathSegments pathname with
  | [] => .home
  | ["explore"] => .explore
  | ["article", id] => .article id
  | ["educator"] => .educatorDashboard
  | ["educator", "create"] => .articleEditorCreate
  | ["educator", "edit", id] => .articleEditorEdit id
  | ["educator", id] => .educatorProfilePage id
  | ["login"] => .login
  | ["auth", "callback"] => .authCallback
  | ["contact"] => .contact
  | ["about"] => .about
  | ["vision"] => .vision
  | ["dashboard"] => .studentDashboard
  | ["admin"] => .adminDashboard
  | _ => .redirectHome

/-- `AppRouter`: before any route matching, if the URL fragment contains
'session_id=' the component returns `<AuthCallback />` directly; otherwise
the `<Routes>` table decides from the pathname. -/
def AppRouter (location : RouteLocation) : RouteElement :=
  if includesSub location.hash "session_id=" then .authCallback
  else matchRoutes location.pathname

/- ================================================================
   EducatorDashboard.handleDeleteArticle (src/unnamed/part_004) and
   AdminDashboard.handleArticleAction
   ================================================================ -/

/-- The article list entries the two dashboards hold (the fields relevant
to the mutations; the deletes key on `article_id` only). -/
structure EdArticle where
  article_id : String
  title : String
  status : String
deriving DecidableEq, Repr

/-- `handleDeleteArticle(articleId)` in EducatorDashboard: an unconfirmed
`window.confirm` returns early; otherwise DELETE is awaited and on success
the list becomes `articles.filter(a => a.article_id !== articleId)`; the
`catch` branch only toasts, leaving the list untouched. -/
def handleDeleteArticle (confirmed : Bool) (apiResult : Except String Unit)
    (articles : List EdArticle) (articleId : String) : List EdArticle :=
  if !confirmed then articles
  else
    match apiResult with
    | .ok _ => articles.filter (fun a => a.article_id != articleId)
    | .error _ => articles

/-- `handleArticleAction(articleId, action, reason)` in AdminDashboard: the
POST is awaited and on success the pending list becomes
`articles.filter(a => a.article_id !== articleId)`; the `catch` branch only
toasts. -/
def handleArticleAction (apiResult : Except String Unit)
    (articles : List EdArticle) (articleId : String) : List EdArticle :=
  match apiResult with
  | .ok _ => articles.filter (fun a => a.article_id != articleId)
  | .error _ => articles

/-- A concrete dashboard list for evaluating the mutations: two distinct ids,
one of them appearing twice. -/
def demoArticles : List EdArticle :=
  [{ article_id := "a", title := "t1", status := "published" },
   { article_id := "b", title := "t2", status := "pending" },
   { article_id := "a", title := "t3", status := "draft" }]

/- ================================================================
   Helper lemmas
   ================================================================ -/

/-- `includesOpt` is true exactly when the value is a present role belonging
to the list. -/
theorem includesOpt_iff (roles : List String) (v : Option String) :
    includesOpt roles v = true ↔ ∃ r, v = some r ∧ r ∈ roles := by
  cases v with
  | none => simp [includesOpt]
  | some s => simp [includesOpt]

/- ================================================================
   Claim theorems
   ================================================================ -/

/-- C1: while the auth state is loading, a route wrapped in ProtectedRoute
renders the spinner; an unauthenticated user is redirected to /login with the
original location in the navigation state; an authenticated user whose role
is not in a non-empty allowedRoles list is redirected to /; otherwise the
children render — and consequently, with a non-empty allowedRoles list, the
children render only when the user holds one of the allowed roles. -/
theorem C1_protected_route_gating (auth : AuthState) (loc : RouteLocation)
    (roles : List String) :
    (auth.loading = true → ProtectedRoute auth loc roles = .spinner) ∧
    (auth.loading = false → auth.user = none →
      ProtectedRoute auth loc roles = .redirect "/login" (some loc)) ∧
    (auth.loading = false → auth.user.isSome = true → roles ≠ [] →
      includesOpt roles (optRole auth) = false →
      ProtectedRoute auth loc roles = .redirect "/" none) ∧
    (auth.loading = false → auth.user.isSome = true →
      (roles = [] ∨ includesOpt roles (optRole auth) = true) →
      ProtectedRoute auth loc roles = .children) ∧
    (roles ≠ [] → ProtectedRoute auth loc roles = .children →
      ∃ r, optRole auth = some r ∧ r ∈ roles) := by
  obtain ⟨u, l⟩ := auth
  refine ⟨?_, ?_, ?_, ?_, ?_⟩
  · intro hl
    subst hl
    simp [ProtectedRoute]
  · intro hl hu
    subst hl
    subst hu
    simp [ProtectedRoute, isAuthenticated]
  · intro hl hu hroles hrole
    subst hl
    obtain ⟨u0, rfl⟩ := Option.isSome_iff_exists.mp hu
    have hlen : 0 < roles.length := List.length_pos.mpr hroles
    simp [ProtectedRoute, isAuthenticated, hrole, hlen]
  · intro hl hu hcase
    subst hl
    obtain ⟨u0, rfl⟩ := Option.isSome_iff_exists.mp hu
    rcases hcase with hnil | hmem
    · subst hnil
      simp [ProtectedRoute, isAuthenticated]
    · simp [ProtectedRoute, isAuthenticated, hmem]
  · intro hroles hchild
    by_cases hl : l
    · subst hl
      simp [ProtectedRoute] at hchild
    · simp only [Bool.not_eq_true] at hl
      subst hl
      cases u with
      | none => simp [ProtectedRoute, isAuthenticated] at hchild
      | some u0 =>
        rw [← includesOpt_iff]
        by_contra hno
        simp only [Bool.not_eq_true] at hno
        have hlen : 0 < roles.length := List.length_pos.mpr hroles
        have hredir : ProtectedRoute ⟨some u0, false⟩ loc roles = .redirect "/" none := by
          simp [ProtectedRoute, isAuthenticated, hno, hlen]
        rw [hchild] at hredir
        exact absurd hredir (by simp)

/-- C1 witness: an unauthenticated user hitting /dashboard is redirected to
/login with the original location preserved. -/
theorem C1_protected_route_gating_witness :
    ProtectedRoute { user := none, loading := false }
        { pathname := "/dashboard", hash := "" } ["student"] =
      .redirect "/login" (some { pathname := "/dashboard", hash := "" }) :=
  (C1_protected_route_gating { user := none, loading := false }
    { pathname := "/dashboard", hash := "" } ["student"]).2.1 rfl rfl

/-- C2 counterexample: a non-ok response whose JSON body has a `detail` field
that is present but empty throws 'Request failed', not the detail value — so
the message is not "the JSON body's detail field when present". -/
theorem C2_counterexample_empty_detail :
    apiCall { ok := false, jsonBody := some { detail := some "", payload := "body" } } =
      .thrown "Request failed" ∧
    publicApiCall { ok := false, jsonBody := some { detail := some "", payload := "body" } } =
      .thrown "Request failed" ∧
    ("Request failed" : String) ≠ "" := by
  refine ⟨rfl, rfl, by decide⟩

/-- C2 amended: for every response received by apiCall or publicApiCall, if
`response.ok` is false the call throws an Error whose message is the JSON
body's `detail` field when present and non-empty (JS-truthy); the message is
'An error occurred' when the body is not JSON and 'Request failed' when
`detail` is absent or empty. If `response.ok` is true the call returns the
parsed JSON body. Each call consumes exactly one fetched response, with no
retry, backoff, or recovery beyond throwing. -/
theorem C2_api_error_surface_amended (r : HttpResponse) :
    (∀ b d, r.ok = false → r.jsonBody = some b → b.detail = some d → d ≠ "" →
      apiCall r = .thrown d ∧ publicApiCall r = .thrown d) ∧
    (r.ok = false → r.jsonBody = none →
      apiCall r = .thrown "An error occurred" ∧
      publicApiCall r = .thrown "An error occurred") ∧
    (∀ b, r.ok = false → r.jsonBody = some b →
      (b.detail = none ∨ b.detail = some "") →
      apiCall r = .thrown "Request failed" ∧
      publicApiCall r = .thrown "Request failed") ∧
    (∀ b, r.ok = true → r.jsonBody = some b →
      apiCall r = .success b ∧ publicApiCall r = .success b) := by
  obtain ⟨ok, jb⟩ := r
  refine ⟨?_, ?_, ?_, ?_⟩
  · rintro b d rfl rfl hd hne
    constructor <;> simp [apiCall, publicApiCall, detailOr, strTruthy, hd, hne]
  · rintro rfl rfl
    exact ⟨rfl, rfl⟩
  · rintro b rfl rfl hcase
    rcases hcase with hnone | hempty
    · constructor <;> simp [apiCall, publicApiCall, detailOr, hnone]
    · constructor <;> simp [apiCall, publicApiCall, detailOr, strTruthy, hempty]
  · rintro b rfl rfl
    constructor <;> simp [apiCall, publicApiCall]

/-- C2 witness: a 404 whose body is `{"detail": "Not found"}` surfaces as a
thrown Error with message 'Not found'. -/
theorem C2_api_error_surface_amended_witness :
    apiCall { ok := false, jsonBody := some { detail := some "Not found", payload := "" } } =
      .thrown "Not found" :=
  ((C2_api_error_surface_amended
      { ok := false, jsonBody := some { detail := some "Not found", payload := "" } }).1
    { detail := some "Not found", payload := "" } "Not found" rfl rfl rfl (by decide)).1

/-- C3 counterexample: an authenticated like (or bookmark) click emits no
state update before the POST response arrives — the `beforeResponse` segment
of the handler run is empty, so the toggled flags and the displayed counts
are unchanged until the backend answers. This refutes the claim that they
are updated immediately, before the response. -/
theorem C3_counterexample_not_optimistic :
    (handleLike true (Except.ok { liked := true, like_count := 5 })).beforeResponse = [] ∧
    (handleBookmark true (Except.ok { bookmarked := true, bookmark_count := 2 })).beforeResponse = [] ∧
    applyEffects { isLiked := false, isBookmarked := false, likeCount := 4, bookmarkCount := 1 }
        (handleLike true (Except.ok { liked := true, like_count := 5 })).beforeResponse =
      { isLiked := false, isBookmarked := false, likeCount := 4, bookmarkCount := 1 } :=
  ⟨rfl, rfl, rfl⟩

/-- C3 amended: like and bookmark toggling on the article page is
server-confirmed, not optimistic: an authenticated click issues the POST
with no prior state change, and only after the backend's response arrives
are the toggled flag and the count set — to the response's `liked` /
`like_count` (resp. `bookmarked` / `bookmark_count`) values, followed by a
success toast. -/
theorem C3_server_confirmed_toggle (r : LikeResult) (b : BookmarkResult) :
    (handleLike true (Except.ok r)).beforeResponse = [] ∧
    (handleLike true (Except.ok r)).afterResponse =
      [.setIsLiked r.liked, .setLikeCount r.like_count,
       .toastSuccess (if r.liked then "Article liked!" else "Like removed")] ∧
    (handleBookmark true (Except.ok b)).beforeResponse = [] ∧
    (handleBookmark true (Except.ok b)).afterResponse =
      [.setIsBookmarked b.bookmarked, .setBookmarkCount b.bookmark_count,
       .toastSuccess (if b.bookmarked then "Article bookmarked!" else "Bookmark removed")] :=
  ⟨rfl, rfl, rfl, rfl⟩

/-- C4: the Load More bug evaluated at its failing input. After the initial
mount fetch of page 1, the first Load More click requests page 1 again (the
`fetchArticles(false)` closure still captures the pre-click `page`), so the
very batch already displayed is appended once more: the resulting list is
page 1 twice and contains duplicates. The claim that each click fetches the
page immediately following the last fetched page, with no batch fetched
twice, fails here. -/
theorem C4_load_more_refetches_page_one :
    (exploreMount demoServer).2 = 1 ∧
    (loadMore demoServer (exploreMount demoServer).1).2 = 1 ∧
    ((loadMore demoServer (exploreMount demoServer).1).1).articles =
      demoServer 1 ++ demoServer 1 ∧
    ¬ ((loadMore demoServer (exploreMount demoServer).1).1).articles.Nodup := by
  refine ⟨rfl, rfl, rfl, by decide⟩

/-- C5 counterexample: the like/view counts are not rendered unchanged — an
article card whose `like_count` is 1000 displays '1.0K' (and the dashboards
do the same), not the received value's decimal string '1000'. -/
theorem C5_counterexample_formatted_thousand :
    formatNumberCard (some 1000) = "1.0K" ∧
    formatNumberDashboard (some 1000) = "1.0K" ∧
    ("1.0K" : String) ≠ toString (1000 : Nat) := by
  refine ⟨by decide, by decide, by decide⟩

/-- C5 amended: the numeric count fields pass through a display formatter:
a value below 1000 is displayed exactly as received (its decimal string), a
missing value displays as '0', and a value of 1000 or more is abbreviated to
tenths with a 'K' (or, on the article card, 'M') suffix — e.g. 1000 renders
as '1.0K' — so such values are not displayed as received. -/
theorem C5_format_below_thousand (n : Nat) (h : n < 1000) :
    formatNumberCard (some n) = toString n ∧
    formatNumberDashboard (some n) = toString n ∧
    formatNumberCard none = "0" ∧
    formatNumberDashboard none = "0" ∧
    formatNumberCard (some 1000) = "1.0K" := by
  have h1 : ¬ n ≥ 1000000 := by omega
  have h2 : ¬ n ≥ 1000 := by omega
  refine ⟨?_, ?_, rfl, rfl, by decide⟩
  · simp [formatNumberCard, h1, h2]
  · simp [formatNumberDashboard, h2]

/-- C5 witness: 999 is displayed exactly as received. -/
theorem C5_format_below_thousand_witness :
    formatNumberCard (some 999) = toString (999 : Nat) :=
  (C5_format_below_thousand 999 (by decide)).1

/-- C6 counterexample: two runs of Article.fetchData with the same route
param but different `getArticle` responses issue different related-articles
requests — the second call's input depends on the first call's response,
refuting "no call's input depends on another call's response". -/
theorem C6_counterexample_dependent_request :
    articleFetchRequests "quantum-basics"
        { article_id := "art-1", is_liked := false, is_bookmarked := false,
          like_count := 0, bookmark_count := 0 } ≠
      articleFetchRequests "quantum-basics"
        { article_id := "art-2", is_liked := false, is_bookmarked := false,
          like_count := 0, bookmark_count := 0 } := by
  decide

/-- C6 amended: network calls are independent request/response pairs with no
cancellation or retry, with one exception: on the Article page the
related-articles request takes its article id from the `getArticle`
response (and is issued only after it), so its input depends on that
response — responses with different `article_id` yield different related
requests. The EducatorProfile page's two calls, by contrast, are built from
the route param alone. -/
theorem C6_related_request_dependence (id : String) (r1 r2 : ArticleData) :
    articleFetchRequests id r1 =
      [.getArticle id, .getRelatedArticles r1.article_id 4] ∧
    (r1.article_id ≠ r2.article_id →
      articleFetchRequests id r1 ≠ articleFetchRequests id r2) ∧
    educatorFetchRequests id =
      [.getEducator id, .getEducatorArticles id "published" 20] := by
  refine ⟨rfl, ?_, rfl⟩
  intro hne heq
  simp [articleFetchRequests] at heq
  exact hne heq

/-- C6 witness: the dependence instantiated at two concrete article
responses. -/
theorem C6_related_request_dependence_witness :
    articleFetchRequests "x"
        { article_id := "a", is_liked := false, is_bookmarked := false,
          like_count := 0, bookmark_count := 0 } ≠
      articleFetchRequests "x"
        { article_id := "b", is_liked := false, is_bookmarked := false,
          like_count := 0, bookmark_count := 0 } :=
  (C6_related_request_dependence "x"
    { article_id := "a", is_liked := false, is_bookmarked := false,
      like_count := 0, bookmark_count := 0 }
    { article_id := "b", is_liked := false, is_bookmarked := false,
      like_count := 0, bookmark_count := 0 }).2.1 (by decide)

/-- C7: toggle state consistency on error — when the like (or bookmark) call
fails, running all effects of the handler leaves the toggle state exactly as
before the click and the after-response effects are a single error toast;
an unauthenticated click likewise changes no toggle state and sends no
request. -/
theorem C7_toggle_state_frame (s : ToggleState) (e : String)
    (rl : Except String LikeResult) (rb : Except String BookmarkResult) :
    applyEffects s (handleLike true (Except.error e)).allEffects = s ∧
    applyEffects s (handleBookmark true (Except.error e)).allEffects = s ∧
    (handleLike true (Except.error e)).afterResponse =
      [.toastError "Failed to like article"] ∧
    (handleBookmark true (Except.error e)).afterResponse =
      [.toastError "Failed to bookmark article"] ∧
    applyEffects s (handleLike false rl).allEffects = s ∧
    applyEffects s (handleBookmark false rb).allEffects = s ∧
    (handleLike false rl).requestSent = false ∧
    (handleBookmark false rb).requestSent = false :=
  ⟨rfl, rfl, rfl, rfl, rfl, rfl, rfl, rfl⟩

/-- C8: every registration request body carries role 'student' — both as
`register` builds it and as Login.handleSubmit invokes it from the form
(which has no role input) — `register` never calls setUser, and the user is
set at OTP verification. -/
theorem C8_register_role_student (name email password : String)
    (formData : LoginFormData) (resp : AuthResponse) (b : AuthBody) :
    (registerRequestBody name email password).role = "student" ∧
    (handleSubmitRegisterBody formData).role = "student" ∧
    (∀ u, AuthEffect.setUser u ∉ register name email password resp) ∧
    AuthEffect.setUser b.user ∈ verifyOtp email "123456" { ok := true, body := some b } := by
  refine ⟨rfl, rfl, ?_, ?_⟩
  · intro u
    obtain ⟨ok, body⟩ := resp
    cases ok <;> cases body <;> simp [register]
  · simp [verifyOtp]

/-- C8 witness: a register run against a concrete failing response contains
no setUser effect. -/
theorem C8_register_role_student_witness :
    AuthEffect.setUser (some { role := some "admin" }) ∉
      register "n" "e@x" "pw" { ok := false, body := some { detail := some "taken", user := none } } :=
  (C8_register_role_student "n" "e@x" "pw" { name := "n", email := "e@x", password := "pw" }
    { ok := false, body := some { detail := some "taken", user := none } }
    { detail := none, user := none }).2.2.1 (some { role := some "admin" })

/-- C9: whenever the URL hash contains 'session_id=', AppRouter renders
AuthCallback regardless of the pathname — public, student, educator and
admin routes alike; without that substring the route table decides from the
pathname. -/
theorem C9_session_id_hash_renders_callback (pathname hash : String)
    (h : includesSub hash "session_id=" = true) :
    AppRouter { pathname := pathname, hash := hash } = .authCallback ∧
    (∀ p h2, includesSub h2 "session_id=" = false →
      AppRouter { pathname := p, hash := h2 } = matchRoutes p) := by
  constructor
  · simp [AppRouter, h]
  · intro p h2 hh
    simp [AppRouter, hh]

/-- C9 witness: the admin route with a session_id fragment renders
AuthCallback, not AdminDashboard. -/
theorem C9_session_id_hash_renders_callback_witness :
    AppRouter { pathname := "/admin", hash := "#session_id=abc123" } = .authCallback :=
  (C9_session_id_hash_renders_callback "/admin" "#session_id=abc123" (by decide)).1

/-- C10: frame condition of the two list mutations — on success the local
list is the previous list with exactly the entries whose article_id equals
the target removed (order of the rest preserved: the result is a sublist; an
entry with a different id keeps its multiplicity; no entry with the target
id survives); the admin action produces the same list as the educator
delete; on failure (or an unconfirmed delete) the list is unchanged. -/
theorem C10_delete_frame_condition (articles : List EdArticle) (x e : String) :
    List.Sublist (handleDeleteArticle true (Except.ok ()) articles x) articles ∧
    (∀ a, a ∈ handleDeleteArticle true (Except.ok ()) articles x → a.article_id ≠ x) ∧
    (∀ a, a.article_id ≠ x →
      (handleDeleteArticle true (Except.ok ()) articles x).count a = articles.count a) ∧
    handleArticleAction (Except.ok ()) articles x =
      handleDeleteArticle true (Except.ok ()) articles x ∧
    handleDeleteArticle true (Except.error e) articles x = articles ∧
    handleArticleAction (Except.error e) articles x = articles ∧
    (∀ c, handleDeleteArticle false c articles x = articles) := by
  refine ⟨?_, ?_, ?_, rfl, rfl, rfl, fun c => rfl⟩
  · exact List.filter_sublist _
  · intro a ha
    simp [handleDeleteArticle, List.mem_filter] at ha
    exact ha.2
  · intro a hne
    show (articles.filter (fun b => b.article_id != x)).count a = articles.count a
    rw [List.count_filter]
    simp [hne]

/-- C10 witness: deleting id 'a' from a concrete list removes both entries
with that id and keeps the multiplicity of the remaining entry. -/
theorem C10_delete_frame_condition_witness :
    (handleDeleteArticle true (Except.ok ()) demoArticles "a").count
        { article_id := "b", title := "t2", status := "pending" } =
      demoArticles.count { article_id := "b", title := "t2", status := "pending" } :=
  (C10_delete_frame_condition demoArticles "a" "err").2.2.1
    { article_id := "b", title := "t2", status := "pending" } (by decide)
